import Mathlib

/-!
Verification development for the myvid.ai pipeline orchestration core
(`src/index.tsx`).  The React component's state hooks are embedded as a
single record `AppState`; each state-mutating handler becomes a pure
function on that record.  Asynchronous collaborators (the generative-AI
client, `fetch`, timers, `Math.random`) are passed in explicitly as
parameters so that each handler's effect on the pipeline state is a total
function.
-/

namespace Myvid

/-- The `isLoading` React state: one busy flag per long-running action
(`{ script: false, video: false, audio: false }`, line 79). -/
structure LoadingFlags where
  script : Bool
  video : Bool
  audio : Bool
deriving Repr, DecidableEq

/-- The uploaded base image (`{ base64: string; mimeType: string }`, line 73). -/
structure AppImage where
  base64 : String
  mimeType : String
deriving Repr, DecidableEq

/-- The full pipeline state: one field per `useState` hook of `App`
(lines 71-83 of `src/index.tsx`), in declaration order. -/
structure AppState where
  topic : String
  script : String
  image : Option AppImage
  videoUrl : String
  audioUrl : String
  selectedVoice : String
  currentStep : Int
  isLoading : LoadingFlags
  videoLoadingMessage : String
  error : String
  audioError : String
  videoGenerationFailed : Bool
deriving Repr, DecidableEq

/-- The initial values passed to the `useState` hooks (lines 71-83):
stage 1, empty texts, no artifacts, female voice, no errors, no busy
flags, `videoGenerationFailed` false, empty loading message. -/
def initialState : AppState :=
  { topic := ""
    script := ""
    image := none
    videoUrl := ""
    audioUrl := ""
    selectedVoice := "female"
    currentStep := 1
    isLoading := { script := false, video := false, audio := false }
    videoLoadingMessage := ""
    error := ""
    audioError := ""
    videoGenerationFailed := false }

/-- The `resetApp` handler (lines 297-310).  It resets `topic`, `script`,
`image`, `videoUrl`, `audioUrl`, `selectedVoice`, `audioError`,
`videoGenerationFailed`, `currentStep`, `error` and `isLoading`; it does
not touch `videoLoadingMessage` (there is no
`setVideoLoadingMessage` call in `resetApp`).  The trailing
`window.speechSynthesis.cancel()` touches no pipeline state. -/
def resetApp (s : AppState) : AppState :=
  { s with
    topic := ""
    script := ""
    image := none
    videoUrl := ""
    audioUrl := ""
    selectedVoice := "female"
    audioError := ""
    videoGenerationFailed := false
    currentStep := 1
    error := ""
    isLoading := { script := false, video := false, audio := false } }

/-- The `handleGoBack` handler (lines 312-314):
`setCurrentStep(prev => prev - 1)`. -/
def handleGoBack (s : AppState) : AppState :=
  { s with currentStep := s.currentStep - 1 }

/-- The `skipAudioGeneration` handler (lines 181-184): it clears
`audioUrl` ("Ensure no old audio is carried over") and sets the step
to 3. -/
def skipAudioGeneration (s : AppState) : AppState :=
  { s with audioUrl := "", currentStep := 3 }

/-- The inline error message set by the simulated server-busy branch of
`handleGenerateAudio` (line 159). -/
def audioBusyMessage : String :=
  "The audio generation server is currently busy. Please reload or try again in a moment."

/-- The object URL of the dummy silent MP3 produced on audio success
(lines 167-175).  `URL.createObjectURL` returns an opaque fresh handle;
it is modelled as an opaque constant string. -/
def silentAudioUrl : String := "blob:silent-audio"

/-- The `handleGenerateAudio` handler (lines 150-178).  `serverBusy`
stands for the outcome of the `Math.random() > 0.5` draw (line 158).
Guard: `if (!script) return;` (line 151).  On the busy branch only
`audioError` is set and the audio busy flag is dropped back to false;
on the success branch the dummy audio URL is stored, the busy flag is
dropped, and the step advances to 3. -/
def handleGenerateAudio (serverBusy : Bool) (s : AppState) : AppState :=
  if s.script = "" then s
  else
    let started :=
      { s with
        isLoading := { s.isLoading with audio := true }
        audioError := "" }
    if serverBusy then
      { started with
        audioError := audioBusyMessage
        isLoading := { started.isLoading with audio := false } }
    else
      { started with
        audioUrl := silentAudioUrl
        isLoading := { started.isLoading with audio := false }
        currentStep := 3 }

/-- C2 counterexample: from a state reached after a video run, whose
`videoLoadingMessage` still holds the last rotating loader message,
`resetApp` does not return the initial default state — the loading
message survives the reset. -/
theorem resetApp_not_full_reset :
    resetApp
      { initialState with
        currentStep := 5
        script := "a script"
        videoLoadingMessage := "Almost there..." } ≠ initialState := by
  decide

/-- C2 amended: `resetApp` restores every field to its initial default
except `videoLoadingMessage`, which keeps whatever value it had; in
particular stage, topic, script, all artifacts, voice, both error
fields, all busy flags and the `videoGenerationFailed` latch are
cleared. -/
theorem resetApp_resets_all_but_loading_message (s : AppState) :
    resetApp s = { initialState with videoLoadingMessage := s.videoLoadingMessage } := by
  rfl

/-- C3 counterexample: rewinding from stage 3 to stage 2 and re-advancing
to stage 3 by `skipAudioGeneration` clears the audio artifact that had
already been produced, so rewind-then-re-advance does not leave every
artifact unchanged. -/
theorem rewind_readvance_clears_audioUrl :
    (skipAudioGeneration (handleGoBack
      { initialState with
        currentStep := 3
        script := "a script"
        audioUrl := silentAudioUrl })).audioUrl
      ≠ ({ initialState with
        currentStep := 3
        script := "a script"
        audioUrl := silentAudioUrl } : AppState).audioUrl := by
  decide

/-- C3 amended: `handleGoBack` decrements the step by exactly one and
changes no other field; rewinding and then re-advancing through stage 2
(by skip or by regenerating audio) restores the step and leaves
`script`, `image` and `videoUrl` unchanged — in particular rewinding
from stage 3 to stage 2 and returning leaves `image` unchanged — but the
audio artifact is not preserved: the skip path clears `audioUrl` and the
regenerate path replaces it. -/
theorem rewind_nondestructive (s : AppState) (serverBusy : Bool) :
    handleGoBack s = { s with currentStep := s.currentStep - 1 }
    ∧ (skipAudioGeneration (handleGoBack s)).currentStep = 3
    ∧ (skipAudioGeneration (handleGoBack s)).image = s.image
    ∧ (skipAudioGeneration (handleGoBack s)).script = s.script
    ∧ (skipAudioGeneration (handleGoBack s)).videoUrl = s.videoUrl
    ∧ (skipAudioGeneration (handleGoBack s)).audioUrl = ""
    ∧ (handleGenerateAudio serverBusy (handleGoBack s)).image = s.image
    ∧ (handleGenerateAudio serverBusy (handleGoBack s)).script = s.script
    ∧ (handleGenerateAudio serverBusy (handleGoBack s)).videoUrl = s.videoUrl := by
  refine ⟨rfl, rfl, rfl, rfl, rfl, rfl, ?_, ?_, ?_⟩ <;>
    · unfold handleGenerateAudio handleGoBack
      dsimp only
      split <;> [rfl; (split <;> rfl)]

/-!
The retry wrapper `withRetries` (lines 16-35).  The asynchronous
`apiCall` is modelled as a function `call : Nat → Except E A` giving the
outcome of its k-th execution (0-indexed).  The outcome records the
value returned or the failure re-thrown, the number of executions of
`apiCall`, and the list of backoff delays awaited, in order.
-/

/-- Result of a `withRetries` run: the propagated `Except`, the number
of times the wrapped call ran, and the backoff delays (ms) awaited
between attempts, in order. -/
structure RetryOutcome (E A : Type) where
  result : Except E A
  attemptsMade : Nat
  delays : List Nat
deriving Repr

/-- Loop body of `withRetries` (lines 18-34).  `attempt` is the JS
`attempt` counter value at the top of the iteration (number of failures
so far); the JS code increments it to `attempt + 1` on a failure before
testing `attempt < maxRetries`, and the delay is
`initialDelay * 2 ^ ((attempt + 1) - 1)`.  `isRL` is the
`isRateLimitError` test applied to the caught value. -/
def withRetriesGo {E A : Type} (isRL : E → Bool) (call : Nat → Except E A)
    (maxRetries initialDelay : Nat) (attempt : Nat) (delays : List Nat) :
    RetryOutcome E A :=
  match call attempt with
  | Except.ok a => ⟨Except.ok a, attempt + 1, delays⟩
  | Except.error e =>
    if isRL e = true ∧ attempt + 1 < maxRetries then
      withRetriesGo isRL call maxRetries initialDelay (attempt + 1)
        (delays ++ [initialDelay * 2 ^ attempt])
    else
      ⟨Except.error e, attempt + 1, delays⟩
termination_by maxRetries - attempt
decreasing_by omega

/-- The `withRetries` helper (line 16): run the wrapped call with the
`attempt` counter starting at 0 and no delays awaited yet. -/
def withRetries {E A : Type} (isRL : E → Bool) (call : Nat → Except E A)
    (maxRetries initialDelay : Nat) : RetryOutcome E A :=
  withRetriesGo isRL call maxRetries initialDelay 0 []

/-- Prepending the delay of the current failure to the delays of the
remaining `f - 1` retries gives the delay list of `f` retries. -/
theorem delay_list_step (d attempt f : Nat) (hf : 1 ≤ f) :
    (d * 2 ^ attempt) :: (List.range (f - 1)).map (fun j => d * 2 ^ (attempt + 1 + j))
      = (List.range f).map (fun j => d * 2 ^ (attempt + j)) := by
  obtain ⟨g, rfl⟩ : ∃ g, f = g + 1 := ⟨f - 1, by omega⟩
  rw [Nat.add_sub_cancel, List.range_succ_eq_map, List.map_cons, List.map_map]
  congr 1
  apply List.map_congr_left
  intro a ha
  simp only [Function.comp_apply]
  have h : attempt + 1 + a = attempt + Nat.succ a := by omega
  rw [h]

/-- When every execution of the call fails with a rate-limited failure,
the loop starting at failure count `attempt < N` runs the call exactly
`N - attempt` more times, propagates the failure of call `N - 1`, and
appends one delay `d * 2 ^ (attempt + j)` per extra retry. -/
theorem withRetriesGo_all_rate_limited {E A : Type} (isRL : E → Bool)
    (call : Nat → Except E A) (e : Nat → E)
    (hc : ∀ k, call k = Except.error (e k)) (hr : ∀ k, isRL (e k) = true)
    (N d : Nat) :
    ∀ fuel attempt delays, N = attempt + fuel → attempt < N →
    withRetriesGo isRL call N d attempt delays =
      ⟨Except.error (e (N - 1)), N,
        delays ++ (List.range (fuel - 1)).map (fun j => d * 2 ^ (attempt + j))⟩ := by
  intro fuel
  induction fuel with
  | zero => intro attempt delays hfuel hlt; omega
  | succ f ih =>
    intro attempt delays hfuel hlt
    rw [withRetriesGo, hc attempt]
    dsimp only
    by_cases hcase : attempt + 1 < N
    · rw [if_pos ⟨hr attempt, hcase⟩]
      rw [ih (attempt + 1) (delays ++ [d * 2 ^ attempt]) (by omega) hcase]
      have hf : 1 ≤ f := by omega
      rw [List.append_assoc, List.singleton_append, Nat.add_sub_cancel,
        delay_list_step d attempt f hf]
    · rw [if_neg (by exact fun h => hcase h.2)]
      have ha : attempt = N - 1 := by omega
      have hf : f = 0 := by omega
      subst hf
      simp [ha, show N - 1 + 1 = N by omega]

/-- C4: for every attempt cap `N ≥ 1`, if the wrapped call fails with a
rate-limit-marked failure on every attempt, `withRetries` executes the
call exactly `N` times and the failure it finally propagates is the one
raised by the `N`-th (last) execution. -/
theorem withRetries_exhausts_all_attempts {E A : Type} (isRL : E → Bool)
    (call : Nat → Except E A) (e : Nat → E) (N d : Nat) (hN : 1 ≤ N)
    (hc : ∀ k, call k = Except.error (e k)) (hr : ∀ k, isRL (e k) = true) :
    (withRetries isRL call N d).attemptsMade = N
    ∧ (withRetries isRL call N d).result = Except.error (e (N - 1)) := by
  unfold withRetries
  rw [withRetriesGo_all_rate_limited isRL call e hc hr N d N 0 [] (by omega) (by omega)]
  exact ⟨rfl, rfl⟩

/-- C4 witness: with cap 3 and a call failing every time with the
rate-limited failure `"429"`, exactly 3 attempts are made and the
propagated failure is the last attempt's. -/
theorem withRetries_exhausts_all_attempts_witness :
    (withRetries (fun _ : String => true) (fun _ => Except.error "429") 3 2000
      (A := Unit)).attemptsMade = 3
    ∧ (withRetries (fun _ : String => true) (fun _ => Except.error "429") 3 2000
      (A := Unit)).result = Except.error "429" :=
  withRetries_exhausts_all_attempts (fun _ => true) (fun _ => Except.error "429")
    (fun _ => "429") 3 2000 (by omega) (fun _ => rfl) (fun _ => rfl)

/-- C5: a failure of the first execution that does not carry the
rate-limit marker is propagated unchanged after exactly one execution of
the wrapped call, whatever the cap and initial delay, with no backoff
awaited. -/
theorem withRetries_no_retry_on_other_failures {E A : Type} (isRL : E → Bool)
    (call : Nat → Except E A) (e : E) (N d : Nat)
    (h0 : call 0 = Except.error e) (hnr : isRL e = false) :
    withRetries isRL call N d = ⟨Except.error e, 1, []⟩ := by
  unfold withRetries
  rw [withRetriesGo, h0]
  dsimp only
  rw [if_neg (by simp [hnr])]

/-- C5 witness: a non-rate-limited failure (`isRL` constantly false) is
propagated with exactly one attempt under the default cap 3. -/
theorem withRetries_no_retry_on_other_failures_witness :
    withRetries (fun _ : String => false) (fun _ => Except.error "boom") 3 2000
      = (⟨Except.error "boom", 1, []⟩ : RetryOutcome String Unit) :=
  withRetries_no_retry_on_other_failures (fun _ => false)
    (fun _ => Except.error "boom") "boom" 3 2000 rfl rfl

/-- C6: under all-rate-limited failures the delay awaited between failed
attempt `k` and attempt `k + 1` is exactly `d * 2 ^ (k - 1)`, with no
jitter and no cap; with the defaults (cap 3, initial delay 2000) the
awaited delays are precisely `[2000, 4000]`. -/
theorem withRetries_backoff_delays {E A : Type} (isRL : E → Bool)
    (call : Nat → Except E A) (e : Nat → E) (N d : Nat)
    (hc : ∀ k, call k = Except.error (e k)) (hr : ∀ k, isRL (e k) = true)
    (k : Nat) (hk : 1 ≤ k) (hkN : k ≤ N - 1) :
    (withRetries isRL call N d).delays[k - 1]? = some (d * 2 ^ (k - 1))
    ∧ (withRetries (fun _ : String => true) (fun _ => Except.error "429") 3 2000
        (A := Unit)).delays = [2000, 4000] := by
  constructor
  · unfold withRetries
    rw [withRetriesGo_all_rate_limited isRL call e hc hr N d N 0 [] (by omega) (by omega)]
    simp only [List.nil_append]
    rw [List.getElem?_map, List.getElem?_range (by omega)]
    simp
  · unfold withRetries
    rw [withRetriesGo_all_rate_limited (fun _ : String => true)
      (fun _ => Except.error "429") (fun _ => "429") (fun _ => rfl) (fun _ => rfl)
      3 2000 3 0 [] (by omega) (by omega)]
    decide

/-- C6 witness: with cap 3 and initial delay 2000 the delay between
failed attempt 1 and attempt 2 is 2000 = 2000 * 2 ^ 0. -/
theorem withRetries_backoff_delays_witness :
    (withRetries (fun _ : String => true) (fun _ => Except.error "429") 3 2000
      (A := Unit)).delays[0]? = some (2000 * 2 ^ 0)
    ∧ (withRetries (fun _ : String => true) (fun _ => Except.error "429") 3 2000
      (A := Unit)).delays = [2000, 4000] :=
  withRetries_backoff_delays (fun _ => true) (fun _ => Except.error "429")
    (fun _ => "429") 3 2000 (fun _ => rfl) (fun _ => rfl) 1 (by omega) (by omega)

/-!
Model of the caught JavaScript failure values and of the textual tests
the code applies to them.  A caught value is either a standard `Error`
(whose `message` is an own non-enumerable property, so
`JSON.stringify` yields the empty object text), a plain object with
string fields (all serialized), or a plain string.
-/

/-- A caught JavaScript failure value. -/
inductive JsValue where
  | errorObj (message : String)
  | plainObj (fields : List (String × String))
  | str (s : String)
deriving Repr, DecidableEq

/-- Substring test helper: `pat` is a leading segment of `s`. -/
def isSubAt : List Char → List Char → Bool
  | [], _ => true
  | _ :: _, [] => false
  | p :: ps, c :: cs => p == c && isSubAt ps cs

/-- Substring test helper: `pat` occurs somewhere in `s`. -/
def hasSub (pat : List Char) : List Char → Bool
  | [] => isSubAt pat []
  | c :: cs => isSubAt pat (c :: cs) || hasSub pat cs

/-- JavaScript `s.includes(pat)`: substring containment on the
character lists of the two strings. -/
def strIncludes (s pat : String) : Bool :=
  hasSub pat.data s.data

/-- ASCII lowering of one character, as JavaScript `toLowerCase` acts on
the ASCII range (every marker substring tested by the code is ASCII). -/
def lowerChar (c : Char) : Char :=
  if 'A' ≤ c ∧ c ≤ 'Z' then Char.ofNat (c.toNat + 32) else c

/-- JavaScript `s.toLowerCase()` on ASCII strings. -/
def lowerStr (s : String) : String :=
  ⟨s.data.map lowerChar⟩

/-- JavaScript `JSON.stringify(e)`.  A standard `Error` has no own
enumerable properties, so it serializes to the empty object text — its
`message` does not appear.  A plain object serializes its string
fields; a string serializes quoted. -/
def jsonStringify : JsValue → String
  | JsValue.errorObj _ => "\x7b\x7d"
  | JsValue.plainObj fields =>
      "\x7b"
        ++ String.intercalate ","
          (fields.map (fun f => "\"" ++ f.1 ++ "\":\"" ++ f.2 ++ "\""))
        ++ "\x7d"
  | JsValue.str s => "\"" ++ s ++ "\""

/-- JavaScript `String(e)`: a standard `Error` stringifies through
`Error.prototype.toString` (name, then `": "` and the message when the
message is non-empty); a plain object gives the default object tag. -/
def jsToString : JsValue → String
  | JsValue.errorObj m => if m = "" then "Error" else "Error: " ++ m
  | JsValue.plainObj _ => "[object Object]"
  | JsValue.str s => s

/-- The expression `e instanceof Error ? e.message : ''` of
`generateScript` (line 107). -/
def instanceofErrorMessage : JsValue → String
  | JsValue.errorObj m => m
  | _ => ""

/-- The error-category taxonomy of the spec: one category per
user-facing message branch of the two catch blocks. -/
inductive ErrCategory where
  | quotaExceeded
  | missingResult
  | contentPolicyViolation
  | unexpected
deriving Repr, DecidableEq

/-- The text `generateScript` classifies on (lines 106-110): the
`Error` message (or `''`) joined with the JSON serialization by a
space. -/
def scriptCombinedMessage (e : JsValue) : String :=
  instanceofErrorMessage e ++ " " ++ jsonStringify e

/-- The catch block of `generateScript` (lines 104-116): the combined
message is tested, case-sensitively, for `'quota'` and
`'RESOURCE_EXHAUSTED'`; every other failure takes the generic branch.
There is no sentinel branch and no content-policy branch in this
stage. -/
def classifyScriptError (e : JsValue) : ErrCategory :=
  let combined := scriptCombinedMessage e
  if strIncludes combined "quota" || strIncludes combined "RESOURCE_EXHAUSTED" then
    ErrCategory.quotaExceeded
  else
    ErrCategory.unexpected

/-- The expression `(e instanceof Error ? e : new Error(String(e))).message`
of `generateVideo` (lines 278-279). -/
def videoErrorMessage : JsValue → String
  | JsValue.errorObj m => m
  | v => jsToString v

/-- The catch block of `generateVideo` (lines 281-289): the message
alone is tested — case-sensitively for `'quota'` /
`'RESOURCE_EXHAUSTED'`, then for the `'VIDEO_URI_MISSING'` sentinel,
then case-insensitively for `'sensitive'` / `'policy'` /
`'responsible ai'` — and every other failure takes the generic
branch. -/
def classifyVideoError (e : JsValue) : ErrCategory :=
  let msg := videoErrorMessage e
  if strIncludes msg "quota" || strIncludes msg "RESOURCE_EXHAUSTED" then
    ErrCategory.quotaExceeded
  else if strIncludes msg "VIDEO_URI_MISSING" then
    ErrCategory.missingResult
  else if strIncludes (lowerStr msg) "sensitive"
      || strIncludes (lowerStr msg) "policy"
      || strIncludes (lowerStr msg) "responsible ai" then
    ErrCategory.contentPolicyViolation
  else
    ErrCategory.unexpected

/-- A leading-segment match survives extending the searched list. -/
theorem isSubAt_append (pat xs ys : List Char) (h : isSubAt pat xs = true) :
    isSubAt pat (xs ++ ys) = true := by
  induction pat generalizing xs with
  | nil => rfl
  | cons p ps ih =>
    cases xs with
    | nil => simp [isSubAt] at h
    | cons x xs =>
      simp only [isSubAt, Bool.and_eq_true] at h ⊢
      exact ⟨h.1, ih xs h.2⟩

/-- A substring occurrence survives appending on the right. -/
theorem hasSub_append_left (pat xs ys : List Char) (h : hasSub pat xs = true) :
    hasSub pat (xs ++ ys) = true := by
  induction xs with
  | nil =>
    cases pat with
    | nil =>
      cases ys with
      | nil => rfl
      | cons y ys => simp [hasSub, isSubAt]
    | cons p ps => simp [hasSub, isSubAt] at h
  | cons x xs ih =>
    simp only [List.cons_append, hasSub, Bool.or_eq_true] at h ⊢
    cases h with
    | inl h => exact Or.inl (isSubAt_append _ _ _ h)
    | inr h => exact Or.inr (ih h)

/-- A substring of a string is a substring of that string extended on
the right. -/
theorem strIncludes_append_left (s t pat : String)
    (h : strIncludes s pat = true) : strIncludes (s ++ t) pat = true := by
  unfold strIncludes at h ⊢
  exact hasSub_append_left pat.data s.data t.data h

/-- C1 counterexample: the same caught failure — an `Error` whose
message is `"sensitive"` — is assigned ContentPolicyViolation by the
video-stage catch block but Unexpected by the script-stage catch block,
so the two stages do not classify by the same tests; moreover an
`Error` whose message is `"Quota"` is not assigned QuotaExceeded by
either stage, so the `'quota'` test is not case-insensitive. -/
theorem classifier_stage_dependent_counterexample :
    classifyVideoError (JsValue.errorObj "sensitive")
        = ErrCategory.contentPolicyViolation
    ∧ classifyScriptError (JsValue.errorObj "sensitive") = ErrCategory.unexpected
    ∧ classifyScriptError (JsValue.errorObj "Quota") = ErrCategory.unexpected
    ∧ classifyVideoError (JsValue.errorObj "Quota") = ErrCategory.unexpected := by
  decide

/-- C1 amended: the two catch blocks classify differently.  The script
stage tests only `'quota'` / `'RESOURCE_EXHAUSTED'`, case-sensitively,
on the message joined with the serialized form, and yields QuotaExceeded
or else Unexpected — never MissingResult or ContentPolicyViolation; the
video stage tests the message alone, with the sentinel and the
case-insensitive content-policy branches in addition.  For an
`Error`-shaped failure the stages agree on QuotaExceeded: a video-stage
QuotaExceeded classification implies the script-stage one. -/
theorem classifier_stage_dependent (m : String) :
    classifyScriptError (JsValue.errorObj m) ≠ ErrCategory.missingResult
    ∧ classifyScriptError (JsValue.errorObj m) ≠ ErrCategory.contentPolicyViolation
    ∧ (classifyVideoError (JsValue.errorObj m) = ErrCategory.quotaExceeded →
        classifyScriptError (JsValue.errorObj m) = ErrCategory.quotaExceeded) := by
  refine ⟨?_, ?_, ?_⟩
  · simp only [classifyScriptError]
    split <;> simp
  · simp only [classifyScriptError]
    split <;> simp
  · intro hv
    by_cases hq : (strIncludes m "quota" || strIncludes m "RESOURCE_EXHAUSTED") = true
    · have hmsg : scriptCombinedMessage (JsValue.errorObj m)
          = m ++ (" " ++ jsonStringify (JsValue.errorObj m)) := by
        unfold scriptCombinedMessage instanceofErrorMessage
        rw [String.append_assoc]
      have hcomb : (strIncludes (scriptCombinedMessage (JsValue.errorObj m)) "quota"
          || strIncludes (scriptCombinedMessage (JsValue.errorObj m))
              "RESOURCE_EXHAUSTED") = true := by
        rw [hmsg, Bool.or_eq_true]
        rw [Bool.or_eq_true] at hq
        cases hq with
        | inl h => exact Or.inl (strIncludes_append_left m _ "quota" h)
        | inr h => exact Or.inr (strIncludes_append_left m _ "RESOURCE_EXHAUSTED" h)
      simp only [classifyScriptError]
      rw [if_pos hcomb]
    · exfalso
      simp only [classifyVideoError, videoErrorMessage] at hv
      rw [if_neg hq] at hv
      split at hv
      · exact ErrCategory.noConfusion hv
      · split at hv
        · exact ErrCategory.noConfusion hv
        · exact ErrCategory.noConfusion hv

/-- C1 amended witness: for the failure `new Error("quota exceeded")`
both stages yield QuotaExceeded, and the script stage yields neither
MissingResult nor ContentPolicyViolation. -/
theorem classifier_stage_dependent_witness :
    classifyScriptError (JsValue.errorObj "quota exceeded") ≠ ErrCategory.missingResult
    ∧ classifyScriptError
        (JsValue.errorObj "quota exceeded") = ErrCategory.quotaExceeded :=
  ⟨(classifier_stage_dependent "quota exceeded").1,
    (classifier_stage_dependent "quota exceeded").2.2 (by decide)⟩

/-- The `isRateLimitError` test of `withRetries` (line 23):
`JSON.stringify(e).includes('RESOURCE_EXHAUSTED')`, a case-sensitive
substring test on the serialized form only. -/
def isRateLimitError (e : JsValue) : Bool :=
  strIncludes (jsonStringify e) "RESOURCE_EXHAUSTED"

/-- C9: the retry decision looks only at the JSON serialization of the
failure.  A standard `Error` serializes without its message, so even
when the message contains `'RESOURCE_EXHAUSTED'` the failure is
non-retriable: the wrapped call runs exactly once and the failure is
propagated unchanged.  A plain object that carries the marker in a
serialized field is retriable, and the lowercase marker is not matched
(the test is case-sensitive). -/
theorem retry_marker_tested_on_serialization_only {A : Type}
    (m : String) (call : Nat → Except JsValue A)
    (_hm : strIncludes m "RESOURCE_EXHAUSTED" = true)
    (h0 : call 0 = Except.error (JsValue.errorObj m)) :
    isRateLimitError (JsValue.errorObj m) = false
    ∧ withRetries isRateLimitError call 3 2000
        = ⟨Except.error (JsValue.errorObj m), 1, []⟩
    ∧ isRateLimitError
        (JsValue.plainObj [("status", "RESOURCE_EXHAUSTED")]) = true
    ∧ isRateLimitError
        (JsValue.plainObj [("status", "resource_exhausted")]) = false := by
  refine ⟨by rfl, ?_, by decide, by decide⟩
  exact withRetries_no_retry_on_other_failures isRateLimitError call
    (JsValue.errorObj m) 3 2000 h0 (by rfl)

/-- C9 witness: with the call failing as `new Error("RESOURCE_EXHAUSTED")`
the wrapper makes one attempt and propagates the failure unchanged. -/
theorem retry_marker_tested_on_serialization_only_witness :
    isRateLimitError (JsValue.errorObj "RESOURCE_EXHAUSTED") = false
    ∧ withRetries isRateLimitError
        (fun _ => (Except.error (JsValue.errorObj "RESOURCE_EXHAUSTED")
          : Except JsValue Unit)) 3 2000
          = ⟨Except.error (JsValue.errorObj "RESOURCE_EXHAUSTED"), 1, []⟩ := by
  have h := retry_marker_tested_on_serialization_only (A := Unit) "RESOURCE_EXHAUSTED"
    (fun _ => Except.error (JsValue.errorObj "RESOURCE_EXHAUSTED")) (by decide) rfl
  exact ⟨h.1, h.2.1⟩

/-!
Model of the long-running video operation driven by `generateVideo`
(lines 231-272): the submission returns an operation handle, the handle
is re-polled while `done` is false, and the terminal handle is examined
for an error payload, then for the result URI, which is fetched.
-/

/-- The `error` payload a completed operation may carry; its `message`
may be absent (and the empty string is falsy in JavaScript). -/
structure OperationError where
  message : Option String
deriving Repr, DecidableEq

/-- An operation handle as consumed by the poller: the `done` flag, the
optional `error` payload, and the optional result reference
`response?.generatedVideos?.[0]?.video?.uri`. -/
structure OperationHandle where
  done : Bool
  error : Option OperationError
  uri : Option String
deriving Repr, DecidableEq

/-- The response of the final `fetch` of the result URI: the `ok` flag,
the optional `error.message` of a parsed JSON error body (absent when
the body does not parse or has no message), the transport `statusText`,
and the object URL created from the fetched blob. -/
structure FetchResponse where
  ok : Bool
  errorMessage : Option String
  statusText : String
  blobUrl : String
deriving Repr, DecidableEq

/-- JavaScript `x || fallback` on an optional string: the fallback is
used when the value is absent or empty. -/
def jsOrElse (m : Option String) (fallback : String) : String :=
  match m with
  | none => fallback
  | some s => if s = "" then fallback else s

/-- The `while (!operation.done)` loop (lines 239-242): re-poll until a
handle with `done` set is observed.  `poll k` is the handle returned by
the k-th `getVideosOperation` call (each wrapped in `withRetries`);
`fuel` bounds the iterations modelled, `none` standing for a run that is
still polling after `fuel` re-polls (the source loop is unbounded). -/
def pollToDone (poll : Nat → OperationHandle) :
    Nat → Nat → OperationHandle → Option OperationHandle
  | 0, _, op => if op.done then some op else none
  | fuel + 1, k, op => if op.done then some op else pollToDone poll fuel (k + 1) (poll k)

/-- Handling of the terminal operation handle (lines 247-272): an
explicit error payload is re-thrown with its message (or the generic
fallback); otherwise, when the result URI is present it is fetched —
a non-ok response becomes a failure carrying the server-supplied detail
or the status text — and when it is absent the `VIDEO_URI_MISSING`
sentinel failure is thrown.  The second component counts the `fetch`
calls made. -/
def finishVideoOperation (fetchResp : FetchResponse) (op : OperationHandle) :
    Except String String × Nat :=
  match op.error with
  | some err =>
    (Except.error
      (jsOrElse err.message "The video generation service returned an error."), 0)
  | none =>
    match op.uri with
    | some _ =>
      if fetchResp.ok then
        (Except.ok fetchResp.blobUrl, 1)
      else
        (Except.error
          ("Failed to fetch video: " ++ jsOrElse fetchResp.errorMessage
            fetchResp.statusText), 1)
    | none => (Except.error "VIDEO_URI_MISSING", 0)

/-- The poller: drive the submitted handle to a terminal one, then
handle it; `none` when the loop is still polling after `fuel`
re-polls. -/
def runVideoOperation (submitted : OperationHandle) (poll : Nat → OperationHandle)
    (fuel : Nat) (fetchResp : FetchResponse) : Option (Except String String × Nat) :=
  (pollToDone poll fuel 0 submitted).map (finishVideoOperation fetchResp)

/-- C7: whenever the polling loop terminates on a handle with no error
payload and no result URI, the poller fails with the `VIDEO_URI_MISSING`
sentinel and performs no fetch of a result payload. -/
theorem poller_missing_result_sentinel (submitted : OperationHandle)
    (poll : Nat → OperationHandle) (fuel : Nat) (fetchResp : FetchResponse)
    (op : OperationHandle) (hpoll : pollToDone poll fuel 0 submitted = some op)
    (herr : op.error = none) (huri : op.uri = none) :
    runVideoOperation submitted poll fuel fetchResp
      = some (Except.error "VIDEO_URI_MISSING", 0) := by
  unfold runVideoOperation
  rw [hpoll, Option.map_some']
  unfold finishVideoOperation
  rw [herr, huri]

/-- C7 witness: a run that polls once, reaching a done handle with no
error and no URI, fails with the sentinel and makes zero fetches. -/
theorem poller_missing_result_sentinel_witness :
    pollToDone (fun _ => ⟨true, none, none⟩) 1 0 ⟨false, none, none⟩
      = some ⟨true, none, none⟩
    ∧ runVideoOperation ⟨false, none, none⟩ (fun _ => ⟨true, none, none⟩) 1
        ⟨true, none, "OK", "blob:video"⟩
      = some (Except.error "VIDEO_URI_MISSING", 0) :=
  ⟨by decide,
    poller_missing_result_sentinel ⟨false, none, none⟩ (fun _ => ⟨true, none, none⟩)
      1 ⟨true, none, "OK", "blob:video"⟩ ⟨true, none, none⟩ (by decide) rfl rfl⟩

/-!
The synchronous opening of `generateVideo` (lines 210-229), decomposed
into the individual state-setter calls so that their order is part of
the model, and the `handleResubmitVideo` handler (lines 316-318), which
simply re-invokes `generateVideo`.
-/

/-- `setError('')` (line 215). -/
def clearVideoError (s : AppState) : AppState :=
  { s with error := "" }

/-- `setVideoGenerationFailed(false)` (line 216). -/
def clearVideoFailedLatch (s : AppState) : AppState :=
  { s with videoGenerationFailed := false }

/-- `setIsLoading(prev => ({ ...prev, video: true }))` (line 217). -/
def setVideoBusy (s : AppState) : AppState :=
  { s with isLoading := { s.isLoading with video := true } }

/-- `setCurrentStep(5)` (line 218). -/
def enterResultStep (s : AppState) : AppState :=
  { s with currentStep := 5 }

/-- `setVideoLoadingMessage(loadingMessages[0])` (lines 220-225). -/
def showFirstLoadingMessage (s : AppState) : AppState :=
  { s with videoLoadingMessage := "Warming up the cameras..." }

/-- The synchronous prefix of `generateVideo` (lines 210-229), up to the
first await: the guard `if (!script || !image)` only sets an error;
otherwise the error and the failure latch are cleared, then the video
busy flag is set, the step becomes 5 and the first loading message is
shown. -/
def generateVideoStart (s : AppState) : AppState :=
  if s.script = "" ∨ s.image = none then
    { s with error := "Script and image are required to generate a video." }
  else
    showFirstLoadingMessage (enterResultStep (setVideoBusy
      (clearVideoFailedLatch (clearVideoError s))))

/-- The `handleResubmitVideo` handler (lines 316-318): it just calls
`generateVideo` again. -/
def handleResubmitVideo (s : AppState) : AppState :=
  generateVideoStart s

/-- C8: from a state with a failed video attempt (latch set, error
stored, step 5, script and image present), resubmission clears the
latch and the error strictly before the busy flag is touched (after the
two clearing setters the busy flag still has its old value), the
resulting state has the busy flag set, and the script, the image and
the step pointer are unchanged — no rewind. -/
theorem resubmit_clears_failure_before_busy (s : AppState)
    (hscript : s.script ≠ "") (himage : s.image ≠ none)
    (_hfailed : s.videoGenerationFailed = true) (_herr : s.error ≠ "")
    (hstep : s.currentStep = 5) :
    (clearVideoFailedLatch (clearVideoError s)).videoGenerationFailed = false
    ∧ (clearVideoFailedLatch (clearVideoError s)).error = ""
    ∧ (clearVideoFailedLatch (clearVideoError s)).isLoading.video = s.isLoading.video
    ∧ (handleResubmitVideo s).videoGenerationFailed = false
    ∧ (handleResubmitVideo s).error = ""
    ∧ (handleResubmitVideo s).isLoading.video = true
    ∧ (handleResubmitVideo s).script = s.script
    ∧ (handleResubmitVideo s).image = s.image
    ∧ (handleResubmitVideo s).currentStep = s.currentStep := by
  have hguard : ¬(s.script = "" ∨ s.image = none) := fun h => h.elim hscript himage
  unfold handleResubmitVideo generateVideoStart
  rw [if_neg hguard]
  exact ⟨rfl, rfl, rfl, rfl, rfl, rfl, rfl, rfl, by rw [hstep]; rfl⟩

/-- C8 witness: a concrete failed-video state is resubmitted; the latch
and error are cleared before the busy flag is set, and script, image
and step survive. -/
theorem resubmit_clears_failure_before_busy_witness :
    ((handleResubmitVideo
      { initialState with
        script := "a script"
        image := some ⟨"aW1n", "image/png"⟩
        currentStep := 5
        videoGenerationFailed := true
        error := "Failed to generate video due to an unexpected error." }).videoGenerationFailed
          = false)
    ∧ (handleResubmitVideo
      { initialState with
        script := "a script"
        image := some ⟨"aW1n", "image/png"⟩
        currentStep := 5
        videoGenerationFailed := true
        error := "Failed to generate video due to an unexpected error." }).isLoading.video
          = true :=
  ⟨(resubmit_clears_failure_before_busy _ (by decide) (by decide) (by decide)
      (by decide) (by decide)).2.2.2.1,
    (resubmit_clears_failure_before_busy _ (by decide) (by decide) (by decide)
      (by decide) (by decide)).2.2.2.2.2.1⟩

/-- C10: when the simulated audio generation fails (the server-busy
draw), the failure is atomic with respect to the rest of the state:
`audioError` holds the busy message, the audio busy flag is back to
false, and every other field — step, topic, script, artifacts, voice,
the other error and busy fields, the loading message and the failure
latch — is unchanged; the step is advanced to 3 only on the success
branch. -/
theorem audio_failure_atomic (s : AppState) (h : s.script ≠ "") :
    (handleGenerateAudio true s).audioError = audioBusyMessage
    ∧ (handleGenerateAudio true s).isLoading.audio = false
    ∧ (handleGenerateAudio true s).currentStep = s.currentStep
    ∧ (handleGenerateAudio true s).topic = s.topic
    ∧ (handleGenerateAudio true s).script = s.script
    ∧ (handleGenerateAudio true s).image = s.image
    ∧ (handleGenerateAudio true s).audioUrl = s.audioUrl
    ∧ (handleGenerateAudio true s).videoUrl = s.videoUrl
    ∧ (handleGenerateAudio true s).selectedVoice = s.selectedVoice
    ∧ (handleGenerateAudio true s).error = s.error
    ∧ (handleGenerateAudio true s).isLoading.script = s.isLoading.script
    ∧ (handleGenerateAudio true s).isLoading.video = s.isLoading.video
    ∧ (handleGenerateAudio true s).videoLoadingMessage = s.videoLoadingMessage
    ∧ (handleGenerateAudio true s).videoGenerationFailed = s.videoGenerationFailed
    ∧ (handleGenerateAudio false s).currentStep = 3 := by
  unfold handleGenerateAudio
  rw [if_neg h, if_neg h]
  exact ⟨rfl, rfl, rfl, rfl, rfl, rfl, rfl, rfl, rfl, rfl, rfl, rfl, rfl, rfl, rfl⟩

/-- C10 witness: the audio failure from a state with a script leaves
the step at 2 and only sets the audio error. -/
theorem audio_failure_atomic_witness :
    ((handleGenerateAudio true
      { initialState with script := "a script", currentStep := 2 }).audioError
        = audioBusyMessage)
    ∧ (handleGenerateAudio true
      { initialState with script := "a script", currentStep := 2 }).currentStep = 2 :=
  ⟨(audio_failure_atomic _ (by decide)).1,
    (audio_failure_atomic { initialState with script := "a script", currentStep := 2 }
      (by decide)).2.2.1⟩

end Myvid
